import Mathlib

/-!
Verification of the AI capability layer of the Administrator repository-quality CLI.

The development shallowly embeds the TypeScript sources:
  * `src/analyzers/AIAnalyzer.ts` (resilient analyzer with heuristic fallbacks),
  * `src/analyzers/DocumentationAnalyzer.ts` (basic README scoring),
  * `src/ai/AIProviderFactory.ts` (provider construction and validation).
Network calls and JSON parsing are abstracted by explicit outcome parameters;
ambient state read by the code (the clock via Date.now) is passed explicitly.
JavaScript strings are modelled as Lean strings (sequences of characters); the
regular-expression tests used by the scorers are embedded as executable
character-list scanners with the semantics of the concrete patterns appearing
in the source.
-/

/-- Characters matched by the JavaScript regex class backslash-s
(whitespace, including the Unicode space separators and BOM). -/
def isJsSpace (c : Char) : Bool :=
  c == ' ' || c == '\t' || c == '\n' || c == '\x0b' || c == '\x0c' || c == '\r' ||
  c == '\u00A0' || c == '\u1680' ||
  (decide ('\u2000' ≤ c) && decide (c ≤ '\u200A')) ||
  c == '\u2028' || c == '\u2029' || c == '\u202F' || c == '\u205F' || c == '\u3000' ||
  c == '\uFEFF'

/-- JavaScript line terminators (what the regex dot does not match, and what
a multiline caret anchors after). -/
def isLineTerm (c : Char) : Bool :=
  c == '\n' || c == '\r' || c == '\u2028' || c == '\u2029'

/-- Characters matched by the JavaScript regex dot (anything but a line terminator). -/
def isDot (c : Char) : Bool :=
  !isLineTerm c

/-- `leadsWith p cs` holds when the character list `cs` starts with `p`
(the regex engine matching a case-sensitive literal at the current position). -/
def leadsWith : List Char → List Char → Bool
  | [], _ => true
  | _ :: _, [] => false
  | p :: ps, c :: cs => p == c && leadsWith ps cs

/-- `search m cs` holds when `m` matches at some position of `cs`
(an unanchored regex test tries every starting position). -/
def search (m : List Char → Bool) : List Char → Bool
  | [] => m []
  | c :: rest => m (c :: rest) || search m rest

/-- Continuation of a character-class `+` atom: after at least one matched
character, either hand the remaining input to the continuation `k` or consume
a further matching character (the existential backtracking semantics of a
boolean regex test). -/
def plusAux (p : Char → Bool) (k : List Char → Bool) : List Char → Bool
  | [] => k []
  | c :: rest => k (c :: rest) || (p c && plusAux p k rest)

/-- Match a character-class `+` atom (one or more characters satisfying `p`)
followed by the continuation `k`. -/
def plusThen (p : Char → Bool) (k : List Char → Bool) : List Char → Bool
  | [] => false
  | c :: rest => p c && plusAux p k rest

/-- Match a character-class `*` atom (zero or more characters satisfying `p`)
followed by the continuation `k`. -/
def starThen (p : Char → Bool) (k : List Char → Bool) (cs : List Char) : Bool :=
  k cs || plusThen p k cs

/-- Match a case-insensitive literal (given as a pre-lowercased character
list) followed by the continuation `k`. -/
def litThen : List Char → (List Char → Bool) → List Char → Bool
  | [], k, cs => k cs
  | _ :: _, _, [] => false
  | p :: ps, k, c :: cs => (c.toLower == p) && litThen ps k cs

/-- Continuation accepting any remaining input (end of a pattern). -/
def anyRest : List Char → Bool := fun _ => true

/-- Case-insensitive substring test: the embedding of a JavaScript
`/word/i.test(s)` for a literal word (ASCII letters, as in the source). -/
def containsCI (pat : String) (s : String) : Bool :=
  search (leadsWith (pat.data.map Char.toLower)) (s.data.map Char.toLower)

/-- Case-sensitive substring test (used to state that error messages contain
a required fragment). -/
def containsStr (pat : String) (s : String) : Bool :=
  search (leadsWith pat.data) s.data

/-- Match of the pattern hash, whitespace-plus, dot-plus at the current
position (the body of the title regex of `DocumentationAnalyzer`). -/
def titleAt : List Char → Bool
  | '#' :: rest => plusThen isJsSpace (plusThen isDot anyRest) rest
  | _ => false

/-- Scan for a multiline-anchored match: the flag records whether the current
position is the string start or just after a line terminator. -/
def titleScan : Bool → List Char → Bool
  | _, [] => false
  | atLineStart, c :: rest => (atLineStart && titleAt (c :: rest)) || titleScan (isLineTerm c) rest

/-- Embedding of the test `/^#\s+.+/m` ("has title" in
`DocumentationAnalyzer.calculateReadmeQuality`). -/
def hasTitle (s : String) : Bool :=
  titleScan true s.data

/-- Alternation `(Installation|Install|Setup)`, case-insensitive, at the
current position. -/
def installWordAt (cs : List Char) : Bool :=
  litThen "installation".data anyRest cs || litThen "install".data anyRest cs ||
  litThen "setup".data anyRest cs

/-- Match of `##\s+(Installation|Install|Setup)` at the current position. -/
def installAt : List Char → Bool
  | '#' :: '#' :: rest => plusThen isJsSpace installWordAt rest
  | _ => false

/-- Embedding of the test `/##\s+(Installation|Install|Setup)/i` ("has
installation section"). -/
def hasInstallSection (s : String) : Bool :=
  search installAt s.data

/-- Alternation `(Usage|Example|Quick\s+Start)`, case-insensitive, at the
current position. -/
def usageWordAt (cs : List Char) : Bool :=
  litThen "usage".data anyRest cs || litThen "example".data anyRest cs ||
  litThen "quick".data (plusThen isJsSpace (litThen "start".data anyRest)) cs

/-- Match of `##\s+(Usage|Example|Quick\s+Start)` at the current position. -/
def usageAt : List Char → Bool
  | '#' :: '#' :: rest => plusThen isJsSpace usageWordAt rest
  | _ => false

/-- Embedding of the test `/##\s+(Usage|Example|Quick\s+Start)/i` ("has usage
section"). -/
def hasUsageSection (s : String) : Bool :=
  search usageAt s.data

/-- A code fence (three backticks) at the current position. -/
def fenceAt (cs : List Char) : Bool :=
  leadsWith "```".data cs

/-- Embedding of the test for fenced code blocks: a fence followed, anywhere
later, by a second fence (the lazy middle of the pattern is irrelevant to a
boolean test). -/
def hasCodeBlock (s : String) : Bool :=
  search (fun cs => fenceAt cs && search fenceAt (cs.drop 3)) s.data

/-- A closing parenthesis at the current position. -/
def closeParenAt : List Char → Bool
  | ')' :: _ => true
  | _ => false

/-- Match of the hyperlink pattern (open bracket, dot-plus, close bracket,
open paren, dot-plus, close paren) at the current position. -/
def linkAt : List Char → Bool
  | '[' :: rest =>
    plusThen isDot
      (fun r =>
        match r with
        | ']' :: '(' :: r2 => plusThen isDot closeParenAt r2
        | _ => false)
      rest
  | _ => false

/-- Embedding of the markdown-hyperlink test ("has links"). -/
def hasLink (s : String) : Bool :=
  search linkAt s.data

/-- Match of the badge-image pattern (bang, open bracket, dot-star, close
bracket, open paren, dot-star, close paren) at the current position. -/
def badgeAt : List Char → Bool
  | '!' :: '[' :: rest =>
    starThen isDot
      (fun r =>
        match r with
        | ']' :: '(' :: r2 => starThen isDot closeParenAt r2
        | _ => false)
      rest
  | _ => false

/-- Embedding of the badge-image test ("has badges"). -/
def hasBadge (s : String) : Bool :=
  search badgeAt s.data

/-- Embedding of `DocumentationAnalyzer.calculateReadmeQuality` (the basic
README scoring used when no AI analyzer is available).  The TypeScript
argument has type string-or-null; `none` models null and the guard on an
empty string mirrors the falsiness check at the head of the function.
Lengths count characters (the source counts UTF-16 units; these agree on the
Basic Multilingual Plane). -/
def calculateReadmeQuality : Option String → Nat
  | none => 0
  | some content =>
    if content.length = 0 then 0
    else
      let score : Nat := 0
      let score := score + (if content.length ≥ 500 then 20
                            else if content.length ≥ 200 then 10 else 0)
      let score := score + (if hasTitle content then 10 else 0)
      let score := score + (if content.length > 100 then 10 else 0)
      let score := score + (if hasInstallSection content then 15 else 0)
      let score := score + (if hasUsageSection content then 15 else 0)
      let score := score + (if hasCodeBlock content then 10 else 0)
      let score := score + (if hasLink content then 10 else 0)
      let score := score + (if hasBadge content then 10 else 0)
      min score 100

/-- Embedding of `AIAnalyzer.calculateBasicReadmeScore` (the fallback scoring
used when a configured AI call or its parsing fails). -/
def calculateBasicReadmeScore (content : String) : Nat :=
  let score : Nat := 0
  let score := score + (if content.length > 500 then 20 else 0)
  let score := score + (if content.length > 1500 then 10 else 0)
  let score := score + (if containsCI "installation" content then 15 else 0)
  let score := score + (if containsCI "usage" content then 15 else 0)
  let score := score + (if containsCI "example" content then 10 else 0)
  let score := score + (if containsCI "api" content || containsCI "reference" content then 10 else 0)
  let score := score + (if containsCI "contributing" content then 10 else 0)
  let score := score + (if containsCI "license" content then 10 else 0)
  min score 100

/-- The context record taken by the modernization-roadmap operations.
`lastUpdate` is the epoch-millisecond value of the Date (`getTime`). -/
structure RoadmapContext where
  technologies : List String
  lastUpdate : Int
  hasTests : Bool
  hasCICD : Bool

/-- Embedding of `AIAnalyzer.generateBasicRoadmap`.  The source reads the
ambient clock (`Date.now()`, epoch milliseconds); that read is passed
explicitly as `nowMs`.  `Int.fdiv` is `Math.floor` of the quotient. -/
def generateBasicRoadmap (nowMs : Int) (context : RoadmapContext) : List String :=
  let roadmap : List String := []
  let roadmap := if !context.hasTests then roadmap ++ ["Immediate: Add automated testing (Jest/Mocha)"] else roadmap
  let roadmap := if !context.hasCICD then roadmap ++ ["Immediate: Set up CI/CD with GitHub Actions"] else roadmap
  let daysSinceUpdate : Int := Int.fdiv (nowMs - context.lastUpdate) (1000 * 60 * 60 * 24)
  let roadmap := if daysSinceUpdate > 180 then roadmap ++ ["Short-term: Update dependencies to latest versions"] else roadmap
  roadmap ++ ["Long-term: Implement comprehensive documentation",
              "Long-term: Increase test coverage to 80%+"]

/-- The three adapter kinds the factory can construct. -/
inductive ProviderKind where
  | openai
  | anthropic
  | gemini
deriving DecidableEq

/-- Modelled from the spec: the per-vendor adapter classes
(`OpenAIProvider`, `AnthropicProvider`, `GeminiProvider` under
`src/ai/providers/`) are not part of the available sources — only their
interface, tests and callers are.  `getProviderName` returns the canonical
display name each adapter reports, as fixed by the spec and asserted by the
factory and provider unit tests. -/
def getProviderName : ProviderKind → String
  | .openai => "OpenAI"
  | .anthropic => "Anthropic"
  | .gemini => "Google Gemini"

/-- The configuration record consumed by the factory.  The provider name is
an arbitrary string (the unit tests pass unknown names through the same
entry point); the numeric generation knobs are omitted as no construction
decision reads them. -/
structure AIProviderConfig where
  provider : String
  apiKey : String
  model : Option String := none

/-- Outcome of the lightweight HTTP probe issued by an adapter's credential
check: either a response arrived with the given success flag (`response.ok`),
or the transport threw. -/
inductive ProbeOutcome where
  | response (ok : Bool)
  | exception (message : String)
deriving DecidableEq

/-- Modelled from the spec: the adapter classes are not under the available
sources.  `validateCredentials` wraps its probe in a try/catch — an arrived
response maps to its success flag and a thrown transport error is caught and
mapped to `false` (spec section on vendor adapters, and the provider unit
tests). -/
def validateCredentials (outcome : ProbeOutcome) : Except String Bool :=
  match outcome with
  | .response ok => .ok ok
  | .exception _ => .ok false

namespace AIProviderFactory

/-- The `toLowerCase` call of the dispatch, as a character-wise map (the
provider names involved are ASCII). -/
def jsToLower (s : String) : String :=
  String.mk (s.data.map Char.toLower)

/-- Embedding of `AIProviderFactory.create`: the empty-key guard runs before
the provider-name dispatch (an empty string is the only falsy string), and
the dispatch lowercases the configured provider name. -/
def create (config : AIProviderConfig) : Except String ProviderKind :=
  if config.apiKey = "" then
    .error ("API key is required for " ++ config.provider ++ " provider")
  else
    let p := jsToLower config.provider
    if p = "openai" then .ok .openai
    else if p = "anthropic" then .ok .anthropic
    else if p = "gemini" then .ok .gemini
    else .error ("Unknown AI provider: " ++ config.provider ++
                 ". Supported providers: openai, anthropic, gemini")

/-- Embedding of `AIProviderFactory.validateProvider`: construct through
`create`, then ask the adapter to validate; the surrounding catch converts
any failure anywhere on that path to `false`. -/
def validateProvider (config : AIProviderConfig) (probe : ProbeOutcome) : Except String Bool :=
  match create config with
  | .error _ => .ok false
  | .ok _ =>
    match validateCredentials probe with
    | .ok b => .ok b
    | .error _ => .ok false

end AIProviderFactory

/-- Outcome of one guarded adapter call inside an analyzer operation: the
call (or the JSON parsing of its result, or the field access on a non-object
parse) threw, or parsing produced the value `α`. -/
inductive CallOutcome (α : Type) where
  | failed
  | parsed (value : α)

/-- The fields the README-analysis path reads off the parsed vendor JSON.
`none` in `score` models an absent or null field (a JavaScript falsy access
defaulted by the or-operator); a present numeric value is an integer. -/
structure ReadmeJson where
  score : Option Int
  suggestions : Option (List String)

/-- The fields the code-quality path reads off the parsed vendor JSON. -/
structure CodeJson where
  score : Option Int
  insights : Option (List String)

/-- The defaulting of `value || dflt` on a JavaScript numeric field: an
absent/null field and a present zero are both falsy and replaced by the
default. -/
def jsOrNum (v : Option Int) (dflt : Int) : Int :=
  match v with
  | none => dflt
  | some n => if n = 0 then dflt else n

namespace AIAnalyzer

/-- The analyzer's constructor: the optional adapter is present exactly when
a configuration with a truthy API key was supplied, in which case it is built
by the factory (which can itself fail on an unknown provider name). -/
def mkAIAnalyzer (cfg : Option AIProviderConfig) : Except String (Option ProviderKind) :=
  match cfg with
  | none => .ok none
  | some c =>
    if c.apiKey = "" then .ok none
    else (AIProviderFactory.create c).map some

/-- Embedding of `AIAnalyzer.isAIAvailable`. -/
def isAIAvailable (aiProvider : Option ProviderKind) : Bool :=
  aiProvider.isSome

/-- The result record of the README analysis. -/
structure ReadmeAnalysis where
  qualityScore : Int
  suggestions : List String
deriving DecidableEq

/-- Embedding of `AIAnalyzer.analyzeReadme`: with no adapter it throws; with
an adapter, a parsed response yields the or-defaulted score and suggestions,
and any failure inside the try block falls back to the basic heuristic score
with no suggestions. -/
def analyzeReadme (aiProvider : Option ProviderKind) (readmeContent : String)
    (outcome : CallOutcome ReadmeJson) : Except String ReadmeAnalysis :=
  match aiProvider with
  | none => .error "AI provider not configured"
  | some _ =>
    match outcome with
    | .parsed result => .ok ⟨jsOrNum result.score 50, result.suggestions.getD []⟩
    | .failed => .ok ⟨(calculateBasicReadmeScore readmeContent : Int), []⟩

/-- The result record of the code-quality analysis. -/
structure CodeQualityAnalysis where
  insights : List String
  architectureScore : Int
deriving DecidableEq

/-- Embedding of `AIAnalyzer.analyzeCodeQuality`: with no adapter it throws
(same guard as the README path); with an adapter, a parsed response yields
the or-defaulted insights and score and any failure yields the neutral
default.  The bounded code snapshot only feeds the prompt of the adapter
call, which the outcome parameter abstracts. -/
def analyzeCodeQuality (aiProvider : Option ProviderKind)
    (outcome : CallOutcome CodeJson) : Except String CodeQualityAnalysis :=
  match aiProvider with
  | none => .error "AI provider not configured"
  | some _ =>
    match outcome with
    | .parsed result => .ok ⟨result.insights.getD [], jsOrNum result.score 70⟩
    | .failed => .ok ⟨[], 70⟩

/-- Embedding of `AIAnalyzer.analyzeSecurityConcerns`: with no adapter it
returns the empty list without throwing; with an adapter, a parsed array is
returned as is, a parsed non-array (`parsed none`) and any thrown failure
both yield the empty list. -/
def analyzeSecurityConcerns (aiProvider : Option ProviderKind)
    (outcome : CallOutcome (Option (List String))) : Except String (List String) :=
  match aiProvider with
  | none => .ok []
  | some _ =>
    match outcome with
    | .parsed (some concerns) => .ok concerns
    | .parsed none => .ok []
    | .failed => .ok []

/-- Embedding of `AIAnalyzer.generateModernizationRoadmap`: with no adapter
it returns the heuristic roadmap without throwing; with an adapter, a parsed
array is returned as is and a parsed non-array or any thrown failure yields
the heuristic roadmap. -/
def generateModernizationRoadmap (aiProvider : Option ProviderKind) (nowMs : Int)
    (context : RoadmapContext) (outcome : CallOutcome (Option (List String))) :
    Except String (List String) :=
  match aiProvider with
  | none => .ok (generateBasicRoadmap nowMs context)
  | some _ =>
    match outcome with
    | .parsed (some roadmap) => .ok roadmap
    | .parsed none => .ok (generateBasicRoadmap nowMs context)
    | .failed => .ok (generateBasicRoadmap nowMs context)

end AIAnalyzer

/-- Modelled from the spec: the condition vector that, by the claim's
wording, determines the heuristic README fallback score — length thresholds
(at least 500 and at least 200 characters), a top-level heading, an
installation/setup section, a usage/example section, fenced code blocks,
hyperlinks, and badge images. -/
def claimedReadmeConds (s : String) : List Bool :=
  [decide (s.length ≥ 500), decide (s.length ≥ 200), hasTitle s,
   hasInstallSection s, hasUsageSection s, hasCodeBlock s, hasLink s, hasBadge s]

/-- The conditions actually read by `AIAnalyzer.calculateBasicReadmeScore`. -/
structure BasicReadmeConds where
  over500 : Bool
  over1500 : Bool
  hasInstall : Bool
  hasUsage : Bool
  hasExample : Bool
  hasApiRef : Bool
  hasContrib : Bool
  hasLicense : Bool
deriving DecidableEq

/-- Evaluation of those conditions on a README string. -/
def basicReadmeConds (s : String) : BasicReadmeConds where
  over500 := decide (s.length > 500)
  over1500 := decide (s.length > 1500)
  hasInstall := containsCI "installation" s
  hasUsage := containsCI "usage" s
  hasExample := containsCI "example" s
  hasApiRef := containsCI "api" s || containsCI "reference" s
  hasContrib := containsCI "contributing" s
  hasLicense := containsCI "license" s

/-- The fixed per-condition point values of the basic score, capped at 100
(the shape the claim asserts, with the condition set corrected to the
source's). -/
def basicCondScore (c : BasicReadmeConds) : Nat :=
  min ((if c.over500 then 20 else 0) + (if c.over1500 then 10 else 0) +
       (if c.hasInstall then 15 else 0) + (if c.hasUsage then 15 else 0) +
       (if c.hasExample then 10 else 0) + (if c.hasApiRef then 10 else 0) +
       (if c.hasContrib then 10 else 0) + (if c.hasLicense then 10 else 0)) 100

/-- The conditions actually read by
`DocumentationAnalyzer.calculateReadmeQuality`. -/
structure DocReadmeConds where
  len500 : Bool
  len200 : Bool
  title : Bool
  desc100 : Bool
  install : Bool
  usage : Bool
  codeBlocks : Bool
  links : Bool
  badges : Bool
deriving DecidableEq

/-- Evaluation of those conditions on a README string. -/
def docReadmeConds (s : String) : DocReadmeConds where
  len500 := decide (s.length ≥ 500)
  len200 := decide (s.length ≥ 200)
  title := hasTitle s
  desc100 := decide (s.length > 100)
  install := hasInstallSection s
  usage := hasUsageSection s
  codeBlocks := hasCodeBlock s
  links := hasLink s
  badges := hasBadge s

/-- The fixed per-condition point values of the documentation-analyzer
score, capped at 100 (the first two length thresholds are exclusive
alternatives). -/
def docCondScore (c : DocReadmeConds) : Nat :=
  min ((if c.len500 then 20 else if c.len200 then 10 else 0) +
       (if c.title then 10 else 0) + (if c.desc100 then 10 else 0) +
       (if c.install then 15 else 0) + (if c.usage then 15 else 0) +
       (if c.codeBlocks then 10 else 0) + (if c.links then 10 else 0) +
       (if c.badges then 10 else 0)) 100

theorem search_of_here (m : List Char → Bool) (cs : List Char) (h : m cs = true) :
    search m cs = true := by
  cases cs <;> simp [search, h]

theorem generateBasicRoadmap_closed (nowMs : Int) (ctx : RoadmapContext) :
    generateBasicRoadmap nowMs ctx =
      (if ctx.hasTests then [] else ["Immediate: Add automated testing (Jest/Mocha)"]) ++
      (if ctx.hasCICD then [] else ["Immediate: Set up CI/CD with GitHub Actions"]) ++
      (if Int.fdiv (nowMs - ctx.lastUpdate) (1000 * 60 * 60 * 24) > 180 then
        ["Short-term: Update dependencies to latest versions"] else []) ++
      ["Long-term: Implement comprehensive documentation",
       "Long-term: Increase test coverage to 80%+"] := by
  rcases ctx with ⟨tech, lu, ht, hc⟩
  cases ht <;> cases hc <;>
    by_cases h : 180 < Int.fdiv (nowMs - lu) 86400000 <;>
    simp [generateBasicRoadmap, h]

/-- Claim C4: the heuristic roadmap appends, in order, a testing-setup item
iff tests are absent, a CI/CD item iff CI is absent, a dependency-update item
iff the floored day count since the last update exceeds 180, then always the
two fixed long-term items, so it always holds at least those two. -/
theorem basic_roadmap_order_and_contents (nowMs : Int) (ctx : RoadmapContext) :
    generateBasicRoadmap nowMs ctx =
      (if ctx.hasTests then [] else ["Immediate: Add automated testing (Jest/Mocha)"]) ++
      (if ctx.hasCICD then [] else ["Immediate: Set up CI/CD with GitHub Actions"]) ++
      (if Int.fdiv (nowMs - ctx.lastUpdate) (1000 * 60 * 60 * 24) > 180 then
        ["Short-term: Update dependencies to latest versions"] else []) ++
      ["Long-term: Implement comprehensive documentation",
       "Long-term: Increase test coverage to 80%+"] ∧
    ("Immediate: Add automated testing (Jest/Mocha)" ∈ generateBasicRoadmap nowMs ctx ↔
      ctx.hasTests = false) ∧
    ("Immediate: Set up CI/CD with GitHub Actions" ∈ generateBasicRoadmap nowMs ctx ↔
      ctx.hasCICD = false) ∧
    ("Short-term: Update dependencies to latest versions" ∈ generateBasicRoadmap nowMs ctx ↔
      Int.fdiv (nowMs - ctx.lastUpdate) (1000 * 60 * 60 * 24) > 180) ∧
    "Long-term: Implement comprehensive documentation" ∈ generateBasicRoadmap nowMs ctx ∧
    "Long-term: Increase test coverage to 80%+" ∈ generateBasicRoadmap nowMs ctx ∧
    2 ≤ (generateBasicRoadmap nowMs ctx).length := by
  rw [generateBasicRoadmap_closed]
  rcases ctx with ⟨tech, lu, ht, hc⟩
  cases ht <;> cases hc <;>
    by_cases h : 180 < Int.fdiv (nowMs - lu) 86400000 <;>
    simp [h]

/-- Claim C5 counterexample: the basic roadmap generator reads the ambient
clock, so two invocations with identical arguments (the same context record)
return different results at different clock readings — here at time zero and
200 days later. -/
theorem basic_roadmap_clock_dependence :
    generateBasicRoadmap 0 ⟨[], 0, true, true⟩ ≠
      generateBasicRoadmap 17280000000 ⟨[], 0, true, true⟩ := by
  decide

/-- Claim C5 (amended): the heuristic fallbacks are pure and cannot fail,
and their outputs stay within their documented bounds — the basic README
score is capped at 100 and the basic roadmap always holds between two and
five items — but the roadmap generator also reads the current clock, so it
is deterministic only for a fixed clock reading (its result is a function of
the explicit context plus the clock value). -/
theorem heuristic_fallbacks_bounded_pure (s : String) (nowMs : Int) (ctx : RoadmapContext) :
    calculateBasicReadmeScore s ≤ 100 ∧
    2 ≤ (generateBasicRoadmap nowMs ctx).length ∧
    (generateBasicRoadmap nowMs ctx).length ≤ 5 := by
  refine ⟨?_, ?_, ?_⟩
  · simp only [calculateBasicReadmeScore]
    exact Nat.min_le_right _ _
  · rw [generateBasicRoadmap_closed]
    split_ifs <;> simp
  · rw [generateBasicRoadmap_closed]
    split_ifs <;> simp

/-- Claim C3: on an analyzer constructed with no adapter, availability is
false, README analysis fails with a message containing "AI provider not
configured", and the roadmap operation instead returns the non-empty
heuristic list (a deterministic function of the context and the clock
reading). -/
theorem unconfigured_analyzer_gating (content : String) (o : CallOutcome ReadmeJson)
    (nowMs : Int) (ctx : RoadmapContext) (o2 : CallOutcome (Option (List String))) :
    AIAnalyzer.mkAIAnalyzer none = .ok none ∧
    AIAnalyzer.isAIAvailable none = false ∧
    (∃ msg, AIAnalyzer.analyzeReadme none content o = .error msg ∧
      containsStr "AI provider not configured" msg = true) ∧
    (∃ l, AIAnalyzer.generateModernizationRoadmap none nowMs ctx o2 = .ok l ∧
      l ≠ [] ∧ l = generateBasicRoadmap nowMs ctx) := by
  refine ⟨rfl, rfl, ⟨"AI provider not configured", rfl, by decide⟩,
    generateBasicRoadmap nowMs ctx, rfl, ?_, rfl⟩
  rw [generateBasicRoadmap_closed]
  split_ifs <;> simp

/-- Claim C1 counterexample: invoking the code-quality insight operation with
no adapter configured does raise — it fails with the configuration error
rather than returning a result. -/
theorem codeQuality_unconfigured_raises :
    AIAnalyzer.analyzeCodeQuality none .failed = .error "AI provider not configured" ∧
    (AIAnalyzer.analyzeCodeQuality none .failed).isOk = false :=
  ⟨rfl, rfl⟩

/-- Claim C1 (amended): of the analysis operations other than README
analysis, the security-concern scan and the modernization roadmap never
raise — with no adapter the scan returns an empty list and the roadmap
returns its heuristic result — but the code-quality insight operation is,
like README analysis, gated on configuration and raises "AI provider not
configured" when no adapter is configured. -/
theorem nonReadme_ops_no_raise_amended (p : Option ProviderKind) (o : CallOutcome CodeJson)
    (os : CallOutcome (Option (List String))) (nowMs : Int) (ctx : RoadmapContext) :
    (AIAnalyzer.analyzeSecurityConcerns p os).isOk = true ∧
    (AIAnalyzer.generateModernizationRoadmap p nowMs ctx os).isOk = true ∧
    AIAnalyzer.analyzeSecurityConcerns none os = .ok [] ∧
    AIAnalyzer.generateModernizationRoadmap none nowMs ctx os =
      .ok (generateBasicRoadmap nowMs ctx) ∧
    AIAnalyzer.analyzeCodeQuality none o = .error "AI provider not configured" := by
  refine ⟨?_, ?_, rfl, rfl, rfl⟩ <;>
    rcases p with _ | pk <;> rcases os with _ | (_ | l) <;> rfl

set_option maxHeartbeats 2000000 in
/-- Claim C2 counterexample: the heuristic README fallback score is not a
function of the claim's condition set.  On the AI-failure path, "license"
and "x" agree on every listed condition yet score 10 versus 0 (the scorer
also reads a license keyword the claim does not list); on the unconfigured
path, a 101-character string and "x" agree on every listed condition yet
score 10 versus 0 (the scorer also reads a 100-character description
threshold the claim does not list). -/
theorem readme_score_conditions_counterexample :
    claimedReadmeConds "license" = claimedReadmeConds "x" ∧
    calculateBasicReadmeScore "license" ≠ calculateBasicReadmeScore "x" ∧
    claimedReadmeConds (String.mk (List.replicate 101 'a')) = claimedReadmeConds "x" ∧
    calculateReadmeQuality (some (String.mk (List.replicate 101 'a'))) ≠
      calculateReadmeQuality (some "x") := by
  refine ⟨by decide, by decide, by decide, by decide⟩

/-- Claim C2 (amended): there are two heuristic README scorers.  The score
used when a configured AI call or its parsing fails
(`calculateBasicReadmeScore`) is determined by length thresholds (more than
500 and more than 1500 characters) and case-insensitive presence of the
keywords installation, usage, example, api-or-reference, contributing and
license, each contributing a fixed point value, capped at 100.  The score
used when AI is unavailable (`calculateReadmeQuality`) is determined by the
claim's conditions plus one more: length at least 500 else at least 200, a
top-level heading, a description-length check (more than 100 characters), an
installation/setup section, a usage/example section, fenced code blocks,
hyperlinks, and badge images, each contributing a fixed point value, capped
at 100; a null README scores 0. -/
theorem readme_scorers_condition_decomposition (s : String) :
    calculateBasicReadmeScore s = basicCondScore (basicReadmeConds s) ∧
    calculateReadmeQuality (some s) = docCondScore (docReadmeConds s) ∧
    calculateReadmeQuality none = 0 := by
  refine ⟨?_, ?_, rfl⟩
  · simp only [calculateBasicReadmeScore, basicCondScore, basicReadmeConds,
      decide_eq_true_eq, Nat.zero_add]
  · by_cases h : s.length = 0
    · have hd : s.data = [] := List.eq_nil_of_length_eq_zero h
      simp [calculateReadmeQuality, docCondScore, docReadmeConds, h, hd,
        hasTitle, hasInstallSection, hasUsageSection, hasCodeBlock, hasLink, hasBadge,
        titleScan, search, installAt, usageAt, linkAt, badgeAt, fenceAt, leadsWith]
    · simp only [calculateReadmeQuality, docCondScore, docReadmeConds, h,
        if_false, decide_eq_true_eq, Nat.zero_add]

/-- Claim C6: an adapter's credential validation never raises — it returns a
boolean for every probe outcome, true exactly when the lightweight HTTP
probe arrived successfully, and false both on a non-success response and on
a thrown transport exception. -/
theorem validate_credentials_never_raises (o : ProbeOutcome) :
    ∃ b, validateCredentials o = .ok b ∧ (b = true ↔ o = .response true) := by
  rcases o with ok | msg
  · exact ⟨ok, rfl, by cases ok <;> simp⟩
  · exact ⟨false, rfl, by simp⟩

/-- Claim C7: factory construction with an empty API key fails with a
message containing "API key is required", for every provider value
(the guard precedes the provider dispatch). -/
theorem create_requires_api_key (config : AIProviderConfig) (h : config.apiKey = "") :
    ∃ msg, AIProviderFactory.create config = .error msg ∧
      containsStr "API key is required" msg = true := by
  refine ⟨"API key is required for " ++ config.provider ++ " provider", ?_, ?_⟩
  · simp [AIProviderFactory.create, h]
  · exact search_of_here _ _ rfl

/-- Witness for claim C7 at a concrete unknown provider name. -/
theorem create_requires_api_key_witness :
    (⟨"weird", "", none⟩ : AIProviderConfig).apiKey = "" ∧
    (∃ msg, AIProviderFactory.create ⟨"weird", "", none⟩ = .error msg ∧
      containsStr "API key is required" msg = true) :=
  ⟨rfl, create_requires_api_key ⟨"weird", "", none⟩ rfl⟩

/-- Claim C8: with a non-empty API key, each supported provider name — in
any letter case, via the lowercasing dispatch — constructs the adapter whose
display name is the documented one, and any other provider value fails with
the exact unknown-provider message listing the supported names. -/
theorem create_dispatch_and_names (config : AIProviderConfig) (hkey : config.apiKey ≠ "") :
    (AIProviderFactory.jsToLower config.provider = "openai" →
      AIProviderFactory.create config = .ok .openai ∧ getProviderName .openai = "OpenAI") ∧
    (AIProviderFactory.jsToLower config.provider = "anthropic" →
      AIProviderFactory.create config = .ok .anthropic ∧
      getProviderName .anthropic = "Anthropic") ∧
    (AIProviderFactory.jsToLower config.provider = "gemini" →
      AIProviderFactory.create config = .ok .gemini ∧
      getProviderName .gemini = "Google Gemini") ∧
    (AIProviderFactory.jsToLower config.provider ≠ "openai" →
     AIProviderFactory.jsToLower config.provider ≠ "anthropic" →
     AIProviderFactory.jsToLower config.provider ≠ "gemini" →
      AIProviderFactory.create config = .error ("Unknown AI provider: " ++ config.provider ++
        ". Supported providers: openai, anthropic, gemini")) := by
  refine ⟨fun h => ⟨?_, rfl⟩, fun h => ⟨?_, rfl⟩, fun h => ⟨?_, rfl⟩, fun h1 h2 h3 => ?_⟩ <;>
    simp [AIProviderFactory.create, hkey, *]

/-- Witness for claim C8 at a mixed-case supported name and at an unknown
name. -/
theorem create_dispatch_and_names_witness :
    AIProviderFactory.create ⟨"OpenAI", "test-key", none⟩ = .ok .openai ∧
    AIProviderFactory.create ⟨"unknown", "test-key", none⟩ =
      .error "Unknown AI provider: unknown. Supported providers: openai, anthropic, gemini" := by
  constructor
  · exact ((create_dispatch_and_names ⟨"OpenAI", "test-key", none⟩ (by decide)).1 (by decide)).1
  · have := (create_dispatch_and_names ⟨"unknown", "test-key", none⟩ (by decide)).2.2.2
      (by decide) (by decide) (by decide)
    simpa using this

/-- Claim C9: provider validation never raises — it always returns a
boolean, any construction failure is converted to false, and on successful
construction it returns the adapter's credential-validation result. -/
theorem validate_provider_swallows_errors (config : AIProviderConfig) (probe : ProbeOutcome) :
    (∃ b, AIProviderFactory.validateProvider config probe = .ok b) ∧
    (∀ e, AIProviderFactory.create config = .error e →
      AIProviderFactory.validateProvider config probe = .ok false) ∧
    (∀ p, AIProviderFactory.create config = .ok p →
      AIProviderFactory.validateProvider config probe = validateCredentials probe) := by
  rcases hc : AIProviderFactory.create config with e | p <;> rcases probe with ok | m <;>
    simp [AIProviderFactory.validateProvider, validateCredentials, hc]

/-- Witness for claim C9: a missing key is swallowed to false, and a valid
construction forwards the probe result. -/
theorem validate_provider_swallows_errors_witness :
    AIProviderFactory.validateProvider ⟨"openai", "", none⟩ (.response true) = .ok false ∧
    AIProviderFactory.validateProvider ⟨"openai", "key", none⟩ (.response true) =
      validateCredentials (.response true) :=
  ⟨(validate_provider_swallows_errors ⟨"openai", "", none⟩ (.response true)).2.1
      "API key is required for openai provider" rfl,
   (validate_provider_swallows_errors ⟨"openai", "key", none⟩ (.response true)).2.2
      .openai (by simp [AIProviderFactory.create, AIProviderFactory.jsToLower])⟩

/-- Claim C10: on the successful parse path of README analysis, the quality
score is the parsed score field when it is truthy and 50 when the field is
absent, null, or zero; suggestions default to the empty list; and the result
does not depend on the README content at all (the heuristic scorer is not
consulted), so a vendor-reported zero and a missing score are
indistinguishable. -/
theorem analyze_readme_success_defaulting (pk : ProviderKind)
    (content content2 : String) (r : ReadmeJson) :
    (r.score = none ∨ r.score = some 0 →
      AIAnalyzer.analyzeReadme (some pk) content (.parsed r) =
        .ok ⟨50, r.suggestions.getD []⟩) ∧
    (∀ n : Int, r.score = some n → n ≠ 0 →
      AIAnalyzer.analyzeReadme (some pk) content (.parsed r) =
        .ok ⟨n, r.suggestions.getD []⟩) ∧
    (r.suggestions = none →
      AIAnalyzer.analyzeReadme (some pk) content (.parsed r) =
        .ok ⟨jsOrNum r.score 50, []⟩) ∧
    AIAnalyzer.analyzeReadme (some pk) content (.parsed r) =
      AIAnalyzer.analyzeReadme (some pk) content2 (.parsed r) := by
  refine ⟨fun h => ?_, fun n hn hnz => ?_, fun h => ?_, rfl⟩
  · rcases h with h | h <;> simp [AIAnalyzer.analyzeReadme, jsOrNum, h]
  · simp [AIAnalyzer.analyzeReadme, jsOrNum, hn, hnz]
  · simp [AIAnalyzer.analyzeReadme, h]

/-- Witness for claim C10: a parsed zero score and suggestions default, and
a truthy parsed score passed through. -/
theorem analyze_readme_success_defaulting_witness :
    AIAnalyzer.analyzeReadme (some .openai) "" (.parsed ⟨some 0, none⟩) = .ok ⟨50, []⟩ ∧
    AIAnalyzer.analyzeReadme (some .openai) "" (.parsed ⟨some 87, some ["s"]⟩) =
      .ok ⟨87, ["s"]⟩ := by
  constructor
  · have := (analyze_readme_success_defaulting .openai "" "x" ⟨some 0, none⟩).1 (Or.inr rfl)
    simpa using this
  · have := (analyze_readme_success_defaulting .openai "" "x" ⟨some 87, some ["s"]⟩).2.1
      87 rfl (by decide)
    simpa using this
